import Mathlib

/-!
Verification development for the apatte-pitbox decision-fusion core.

The definitions below are a shallow embedding of the Python sources:
  * `src/adaptive/priority_cascade.py`   — `apply_priority_cascade` and its three phases;
  * `src/adaptive/context_manager.py`    — `determine_race_phase`;
  * `src/utils/data_validators.py`       — `validate_telemetry` (dict branch);
  * `src/inference/inference_engine.py`  — the budgeted scheduler loop of
    `run_real_time_inference` and `_generate_fallback_response`.

Python dictionaries with optional keys are embedded as structures of `Option`
fields; a missing key is `none`.  Python float payloads are embedded as `ℚ`
(every comparison performed by the code — against 10, 0.7, 2, 50 — is exact).
A Python expression that can raise (the `margin < 10` comparison when `margin`
is `None`) is embedded in `Except Unit`.  String formatting of numbers
(Python produces e.g. `"5.0"` where `toString (5 : ℚ)` produces `"5"`) is the
only place the embedding abbreviates, and no claim inspects those strings.
-/

/-- Python truthiness of an optional boolean: only `Some True` passes an
`if x.get(k):` test (absent key gives `None`, which is falsy). -/
def truthy (o : Option Bool) : Bool :=
  match o with
  | some b => b
  | none => false

/-- Python `o.get(k) in l` where the value may be absent: `None in l` is
`False` for a list of strings. -/
def opt_mem (o : Option String) (l : List String) : Bool :=
  match o with
  | some s => l.contains s
  | none => false

/-- Python string interpolation of a possibly-`None` string value. -/
def py_str (o : Option String) : String :=
  match o with
  | some s => s
  | none => "None"

/-- Result dict of the anomaly predictor, as read by `_check_safety_constraints`. -/
structure AnomalyResult where
  anomaly_detected : Option Bool := none
  anomaly_type : Option String := none
  severity : Option String := none
  action_recommend : Option String := none
deriving DecidableEq

/-- One entry of the `medical_alerts` list of a fatigue result. -/
structure MedicalAlertEntry where
  severity : Option String := none
  action : Option String := none
  alert : Option String := none
deriving DecidableEq

/-- Result dict of the fatigue predictor, as read by `_check_safety_constraints`. -/
structure FatigueResult where
  medical_alerts : Option (List MedicalAlertEntry) := none
  fatigue_level : Option Int := none
  fatigue_pct : Option ℚ := none
deriving DecidableEq

/-- Result dict of the energy predictor, as read by `_check_energy_constraints`. -/
structure EnergyResult where
  will_finish : Option Bool := none
  margin : Option ℚ := none
  predicted_final_soc : Option ℚ := none
deriving DecidableEq

/-- Result dict of the racing-line predictor, as read by Phase 3. -/
structure RacingLineResult where
  confidence : Option ℚ := none
  recommendation : Option String := none
deriving DecidableEq

/-- Result dict of the efficiency predictor, as read by Phase 3. -/
structure EfficiencyResult where
  efficiency_gain : Option ℚ := none
  recommendation : Option String := none
deriving DecidableEq

/-- Result dict of the slip/coast predictor, as read by Phase 3. -/
structure SlipCoastResult where
  slip_detected : Option Bool := none
  slip_severity : Option String := none
  optimal_coast_ratio : Option ℚ := none
  recommendation : Option String := none
deriving DecidableEq

/-- The `model_results` mapping passed to `apply_priority_cascade`: one
optional entry per predictor the cascade reads (`h2_purge` and `rank`
results are never read by the cascade). -/
structure ModelResults where
  anomaly : Option AnomalyResult := none
  fatigue : Option FatigueResult := none
  energy : Option EnergyResult := none
  racing_line : Option RacingLineResult := none
  efficiency : Option EfficiencyResult := none
  slip_coast : Option SlipCoastResult := none
deriving DecidableEq

/-- The race-context dict: the cascade itself only ever reads
`race_context.get("race_phase", "UNKNOWN")`. -/
structure RaceContext where
  race_phase : Option String := none
deriving DecidableEq

/-- A sub-recommendation collected by `_recommend_performance_optimization`
(the dicts appended to its local `actions` list, keyed by `"type"`). -/
structure PerfSub where
  type : String
  recommendation : Option String := none
  confidence : Option ℚ := none
  efficiency_gain : Option ℚ := none
  severity : Option String := none
  coast_ratio : Option ℚ := none
deriving DecidableEq

/-- An action dict produced by one of the cascade phases.  Keys that a given
action kind does not carry are `none`. -/
structure CascadeAction where
  action : String
  type : Option String := none
  severity : Option String := none
  recommendation : Option String := none
  reason : Option String := none
  fatigue_pct : Option ℚ := none
  predicted_final_soc : Option ℚ := none
  margin : Option ℚ := none
  phase_specific_recommendations : Option (List PerfSub) := none
  race_phase : Option String := none
deriving DecidableEq

/-- The dict returned by `apply_priority_cascade`.  The early
safety-override return carries the keys `actions` and `reason`; the normal
consolidation return carries `cascade_actions`, `race_context` and
`count_alerts`.  A key absent on a path is `none`. -/
structure Decision where
  primary_action : CascadeAction
  actions : Option (List CascadeAction) := none
  cascade_actions : Option (List CascadeAction) := none
  reason : Option String := none
  severity : String
  race_context : Option RaceContext := none
  count_alerts : Option Nat := none
deriving DecidableEq

/-- The ordered action list of a Decision, regardless of which dict key
(`actions` on the early path, `cascade_actions` on the normal path) holds it. -/
def Decision.allActions (d : Decision) : List CascadeAction :=
  match d.actions with
  | some l => l
  | none =>
    match d.cascade_actions with
    | some l => l
    | none => []

/-- `{"action": "NORMAL_OPERATION"}` — the primary action when no phase
produced anything. -/
def normal_operation_action : CascadeAction :=
  { action := "NORMAL_OPERATION" }

/-- Phase 1 of the cascade: `_check_safety_constraints`. -/
def check_safety_constraints (mr : ModelResults) (_rc : RaceContext) :
    Option CascadeAction :=
  -- anomaly = model_results.get("anomaly", {}); if anomaly.get("anomaly_detected"):
  if truthy (mr.anomaly.bind (fun a => a.anomaly_detected)) then
    some { action := "ANOMALY_DETECTED",
           type := mr.anomaly.bind (fun a => a.anomaly_type),
           severity := some (if mr.anomaly.bind (fun a => a.severity) = some "CRITICAL"
                             then "CRITICAL" else "HIGH"),
           recommendation := mr.anomaly.bind (fun a => a.action_recommend),
           reason := some ("Anomaly: " ++ py_str (mr.anomaly.bind (fun a => a.anomaly_type))) }
  else
    -- fatigue = model_results.get("fatigue", {}); if fatigue.get("medical_alerts"):
    match mr.fatigue.bind (fun f => f.medical_alerts) with
    | some (a :: _) =>
      some { action := "MEDICAL_ALERT",
             severity := some (if a.severity = some "CRITICAL" then "CRITICAL" else "HIGH"),
             recommendation := a.action,
             reason := a.alert }
    | _ =>
      if mr.fatigue.bind (fun f => f.fatigue_level) = some 3 then
        some { action := "HIGH_FATIGUE",
               severity := some "HIGH",
               fatigue_pct := mr.fatigue.bind (fun f => f.fatigue_pct),
               recommendation := some "Recommend driver rest, pit for evaluation, or abort race",
               reason := some "Driver fatigue at critical level" }
      else
        none

/-- Phase 2 of the cascade: `_check_energy_constraints`.  The Python body
evaluates `energy.get("margin") < 10`; when the `margin` key is absent (or
the whole energy entry is), that is `None < 10`, which raises `TypeError` in
Python 3 — embedded as `Except.error ()`. -/
def check_energy_constraints (mr : ModelResults) :
    Except Unit (Option CascadeAction) :=
  if mr.energy.bind (fun e => e.will_finish) = some false then
    Except.ok (some
      { action := "DNF_RISK",
        severity := some "CRITICAL",
        predicted_final_soc := mr.energy.bind (fun e => e.predicted_final_soc),
        margin := mr.energy.bind (fun e => e.margin),
        recommendation := some "Reduce speed 20%, maximize coasting, pit for energy strategy review",
        reason := some "Vehicle will not finish race at current pace" })
  else
    match mr.energy.bind (fun e => e.margin) with
    | none => Except.error ()   -- `None < 10` : TypeError
    | some m =>
      if m < 10 then
        Except.ok (some
          { action := "LOW_ENERGY_MARGIN",
            severity := some "HIGH",
            predicted_final_soc := mr.energy.bind (fun e => e.predicted_final_soc),
            margin := some m,
            recommendation := some "Reduce speed 10%, increase coast ratio +15%, plan pit strategy",
            reason := some ("Energy margin only " ++ toString m ++ "%, risk of DNF") })
      else
        Except.ok none

/-- The `actions` list built inside `_recommend_performance_optimization`:
racing-line, then throttle, then traction-control / coasting sub-recommendations. -/
def perf_subactions (mr : ModelResults) : List PerfSub :=
  (if (mr.racing_line.bind (fun r => r.confidence)).getD 0 > (7 : ℚ)/10 then
    [{ type := "RACING_LINE",
       recommendation := mr.racing_line.bind (fun r => r.recommendation),
       confidence := mr.racing_line.bind (fun r => r.confidence) }]
  else []) ++
  (if (mr.efficiency.bind (fun e => e.efficiency_gain)).getD 0 > 2 then
    [{ type := "THROTTLE_OPTIMIZATION",
       recommendation := mr.efficiency.bind (fun e => e.recommendation),
       efficiency_gain := mr.efficiency.bind (fun e => e.efficiency_gain) }]
  else []) ++
  (if truthy (mr.slip_coast.bind (fun s => s.slip_detected)) then
    [{ type := "TRACTION_CONTROL",
       recommendation := mr.slip_coast.bind (fun s => s.recommendation),
       severity := mr.slip_coast.bind (fun s => s.slip_severity) }]
  else if (mr.slip_coast.bind (fun s => s.optimal_coast_ratio)).getD 0 > 50 then
    [{ type := "COASTING_OPTIMIZATION",
       recommendation := mr.slip_coast.bind (fun s => s.recommendation),
       coast_ratio := mr.slip_coast.bind (fun s => s.optimal_coast_ratio) }]
  else [])

/-- Phase 3 of the cascade: `_recommend_performance_optimization`.
Returns `none` as soon as Phase 1 or Phase 2 produced any action. -/
def recommend_performance_optimization (mr : ModelResults) (rc : RaceContext)
    (safety_action energy_action : Option CascadeAction) : Option CascadeAction :=
  if safety_action.isSome || energy_action.isSome then
    none
  else
    if perf_subactions mr = [] then
      none
    else
      some { action := "PERFORMANCE_OPTIMIZATION",
             severity := some "NORMAL",
             phase_specific_recommendations := some (perf_subactions mr),
             race_phase := some (rc.race_phase.getD "UNKNOWN") }

/-- `len([a for a in actions if a.get("severity") in ["CRITICAL","HIGH","WARNING"]])`. -/
def count_alert_actions (l : List CascadeAction) : Nat :=
  (l.filter (fun a => opt_mem a.severity ["CRITICAL", "HIGH", "WARNING"])).length

/-- The dict built on the normal (non-early-return) path of
`apply_priority_cascade`, given the Phase-1 action (if any), the severity
level after Phase 1, and the Phase-2 action (if any). -/
def mk_normal_decision (rc : RaceContext) (sa : Option CascadeAction)
    (sev1 : String) (ea : Option CascadeAction) (mr : ModelResults) : Decision :=
  let sev2 : String :=
    match ea with
    | some a => if opt_mem a.severity ["CRITICAL", "HIGH"] then "WARNING" else sev1
    | none => sev1
  let pa := recommend_performance_optimization mr rc sa ea
  let acts : List CascadeAction := sa.toList ++ ea.toList ++ pa.toList
  { primary_action := acts.headD normal_operation_action,
    cascade_actions := some acts,
    severity := sev2,
    race_context := some rc,
    count_alerts := some (count_alert_actions acts) }

/-- Phases 2, 3 and consolidation of `apply_priority_cascade` (everything
after the possible Phase-1 early return). -/
def normal_consolidate (rc : RaceContext) (sa : Option CascadeAction)
    (sev1 : String) (mr : ModelResults) : Except Unit Decision :=
  (check_energy_constraints mr).map (fun ea => mk_normal_decision rc sa sev1 ea mr)

/-- `apply_priority_cascade` of `src/adaptive/priority_cascade.py`.
`Except.error ()` is the `TypeError` escaping the Phase-2 margin comparison. -/
def apply_priority_cascade (mr : ModelResults) (rc : RaceContext) :
    Except Unit Decision :=
  match check_safety_constraints mr rc with
  | some sa =>
    let sev := sa.severity.getD "WARNING"
    if ["CRITICAL", "EMERGENCY"].contains sev then
      Except.ok { primary_action := sa,
                  actions := some [sa],
                  reason := some "SAFETY OVERRIDE",
                  severity := sev }
    else
      normal_consolidate rc (some sa) sev mr
  | none => normal_consolidate rc none "NORMAL" mr

/-- `determine_race_phase` of `src/adaptive/context_manager.py` (the pure
phase computation; the `update_context` side effect is irrelevant to the
returned value).  The Python default for `total_laps` is 4. -/
def determine_race_phase (current_lap : Int) (total_laps : Int) : String :=
  if current_lap = 0 then "PRACTICE"
  else if current_lap ≤ 2 then "EARLY"
  else if current_lap = 3 then "MID"
  else if current_lap = total_laps then "LATE"
  else if current_lap > total_laps then "FINISH"
  else "UNKNOWN"

/-- A result returned by one of the eight `_run_*_inference` helpers: the
variant tag matches which predictor produced it (`otherR` stands for the
`h2_purge` and `rank` result dicts, which the cascade never reads). -/
inductive PResult where
  | anomalyR (r : AnomalyResult)
  | fatigueR (r : FatigueResult)
  | energyR (r : EnergyResult)
  | racingLineR (r : RacingLineResult)
  | efficiencyR (r : EfficiencyResult)
  | slipCoastR (r : SlipCoastResult)
  | otherR
deriving DecidableEq

/-- What a predictor invocation does when attempted: it can raise (the
`except Exception` branch of the `_run_*_inference` wrapper), find its model
not loaded (`self.models.get(name) is None`), or return a result. -/
inductive RawOutcome where
  | raises (msg : String)
  | notLoaded
  | ok (r : PResult)
deriving DecidableEq

/-- Abstract behaviour of the eight predictors for one cycle: a wall-clock
latency and an invocation outcome per predictor identifier. -/
structure PredictorBehavior where
  latency : String → ℚ
  outcome : String → RawOutcome

/-- `self.priority_order` of `InferenceEngine.__init__`. -/
def priority_order : List String :=
  ["anomaly", "fatigue", "energy", "h2_purge", "racing_line",
   "slip_coast", "efficiency", "rank"]

/-- The `for model_name in self.priority_order` loop of
`run_real_time_inference`: before each invocation the elapsed time is
compared against the budget (`if (time.time() - start_time) > inference_budget:
break`); a raised exception or missing model gives `result = None`, which the
`if result:` guard drops from the collected results.  Returns the list of
identifiers attempted (in invocation order) and the collected
identifier–result pairs. -/
def sched_loop (beh : PredictorBehavior) (budget : ℚ) :
    List String → ℚ → List String × List (String × PResult)
  | [], _ => ([], [])
  | p :: ps, elapsed =>
    if elapsed > budget then ([], [])
    else
      let rest := sched_loop beh budget ps (elapsed + beh.latency p)
      match beh.outcome p with
      | RawOutcome.ok r => (p :: rest.1, (p, r) :: rest.2)
      | _ => (p :: rest.1, rest.2)

/-- The scheduler portion of `run_real_time_inference`: the loop over
`priority_order` starting from zero elapsed time, with the budget already
converted to seconds. -/
def run_scheduler (beh : PredictorBehavior) (budget : ℚ) :
    List String × List (String × PResult) :=
  sched_loop beh budget priority_order 0

/-- The telemetry dict, restricted to the keys the dict branch of
`validate_telemetry` checks (`"soc_current"`, `"speed_avg"`, `"motor_temp"`). -/
structure Telemetry where
  soc_current : Option ℚ := none
  speed_avg : Option ℚ := none
  motor_temp : Option ℚ := none
deriving DecidableEq

/-- The dict branch of `validate_telemetry` in `src/utils/data_validators.py`:
`all(k in telemetry for k in ["soc_current", "speed_avg", "motor_temp"])`. -/
def validate_telemetry (t : Telemetry) : Bool :=
  t.soc_current.isSome && t.speed_avg.isSome && t.motor_temp.isSome

/-- The recommendation list of `_generate_fallback_response`. -/
def fallback_recommendations : List String :=
  ["Monitor systems manually", "Reduce speed to safe level",
   "Pit for inspection if needed"]

/-- The dict returned by one call of `run_real_time_inference`: either the
fallback response of `_generate_fallback_response` or the cascade decision
annotated with `models_executed` (timing info is not modelled). -/
inductive CycleResult where
  | fallbackR (reason : String) (recommendations : List String)
      (models_executed : List String)
  | decisionR (d : Decision) (models_executed : List String)
deriving DecidableEq

deriving instance DecidableEq for Except

/-- Look up one predictor identifier in the collected result list. -/
def lookup_result (rs : List (String × PResult)) (k : String) : Option PResult :=
  (rs.find? (fun x => x.1 = k)).map Prod.snd

/-- Reassemble the collected results into the `model_results` dict the
cascade reads. -/
def assemble_results (rs : List (String × PResult)) : ModelResults :=
  { anomaly := (lookup_result rs "anomaly").bind
      (fun r => match r with | PResult.anomalyR a => some a | _ => none),
    fatigue := (lookup_result rs "fatigue").bind
      (fun r => match r with | PResult.fatigueR a => some a | _ => none),
    energy := (lookup_result rs "energy").bind
      (fun r => match r with | PResult.energyR a => some a | _ => none),
    racing_line := (lookup_result rs "racing_line").bind
      (fun r => match r with | PResult.racingLineR a => some a | _ => none),
    efficiency := (lookup_result rs "efficiency").bind
      (fun r => match r with | PResult.efficiencyR a => some a | _ => none),
    slip_coast := (lookup_result rs "slip_coast").bind
      (fun r => match r with | PResult.slipCoastR a => some a | _ => none) }

/-- `run_real_time_inference` of `src/inference/inference_engine.py`.
The first component is the returned dict (`Except.error ()` when the
cascade's `TypeError` escapes — the source wraps the cascade call in no
handler); the second component is the list of predictor identifiers
attempted by the loop (the observable side channel recorded through
`self.inference_times` / the timeout log line).  `timeout_ms` is divided by
1000 exactly as in the source. -/
def run_real_time_inference (beh : PredictorBehavior) (telemetry : Telemetry)
    (rc : RaceContext) (timeout_ms : ℚ) :
    Except Unit CycleResult × List String :=
  if validate_telemetry telemetry = false then
    (Except.ok (CycleResult.fallbackR "Invalid telemetry" fallback_recommendations []), [])
  else
    let sched := run_scheduler beh (timeout_ms / 1000)
    let mr := assemble_results sched.2
    match apply_priority_cascade mr rc with
    | Except.ok d =>
      (Except.ok (CycleResult.decisionR d (sched.2.map Prod.fst)), sched.1)
    | Except.error e => (Except.error e, sched.1)

/-! ### Helper lemmas about the cascade -/

lemma check_safety_action_kinds (mr : ModelResults) (rc : RaceContext)
    (a : CascadeAction) (h : check_safety_constraints mr rc = some a) :
    a.action = "ANOMALY_DETECTED" ∨ a.action = "MEDICAL_ALERT" ∨
      a.action = "HIGH_FATIGUE" := by
  unfold check_safety_constraints at h
  split at h
  · cases h
    exact Or.inl rfl
  · split at h
    · cases h
      exact Or.inr (Or.inl rfl)
    · split at h
      · cases h
        exact Or.inr (Or.inr rfl)
      · cases h

lemma check_energy_ok_kinds (mr : ModelResults) (a : CascadeAction)
    (h : check_energy_constraints mr = Except.ok (some a)) :
    a.action = "DNF_RISK" ∨ a.action = "LOW_ENERGY_MARGIN" := by
  unfold check_energy_constraints at h
  split at h
  · cases h
    exact Or.inl rfl
  · split at h
    · cases h
    · split at h
      · cases h
        exact Or.inr rfl
      · cases h

lemma perf_opt_some (mr : ModelResults) (rc : RaceContext)
    (sa ea : Option CascadeAction) (p : CascadeAction)
    (h : recommend_performance_optimization mr rc sa ea = some p) :
    sa = none ∧ ea = none ∧ p.action = "PERFORMANCE_OPTIMIZATION" := by
  unfold recommend_performance_optimization at h
  split at h
  · cases h
  · rename_i hgate
    rw [Bool.or_eq_true, not_or] at hgate
    refine ⟨Option.not_isSome_iff_eq_none.mp (by simpa using hgate.1),
            Option.not_isSome_iff_eq_none.mp (by simpa using hgate.2), ?_⟩
    split at h
    · cases h
    · cases h
      rfl

lemma cascade_ok_cases (mr : ModelResults) (rc : RaceContext) (d : Decision)
    (h : apply_priority_cascade mr rc = Except.ok d) :
    (∃ sa, check_safety_constraints mr rc = some sa ∧
       (["CRITICAL", "EMERGENCY"].contains (sa.severity.getD "WARNING")) = true ∧
       d = { primary_action := sa, actions := some [sa],
             reason := some "SAFETY OVERRIDE",
             severity := sa.severity.getD "WARNING" })
    ∨ (∃ sa ea, check_safety_constraints mr rc = some sa ∧
       (["CRITICAL", "EMERGENCY"].contains (sa.severity.getD "WARNING")) = false ∧
       check_energy_constraints mr = Except.ok ea ∧
       d = mk_normal_decision rc (some sa) (sa.severity.getD "WARNING") ea mr)
    ∨ (∃ ea, check_safety_constraints mr rc = none ∧
       check_energy_constraints mr = Except.ok ea ∧
       d = mk_normal_decision rc none "NORMAL" ea mr) := by
  unfold apply_priority_cascade at h
  cases hs : check_safety_constraints mr rc with
  | some sa =>
    rw [hs] at h
    dsimp only at h
    by_cases hc : (["CRITICAL", "EMERGENCY"].contains (sa.severity.getD "WARNING")) = true
    · rw [if_pos hc] at h
      cases h
      exact Or.inl ⟨sa, rfl, hc, rfl⟩
    · rw [if_neg hc] at h
      unfold normal_consolidate at h
      cases he : check_energy_constraints mr with
      | ok ea =>
        rw [he] at h
        cases h
        exact Or.inr (Or.inl ⟨sa, ea, rfl, Bool.eq_false_iff.mpr hc, rfl, rfl⟩)
      | error e =>
        rw [he] at h
        cases h
  | none =>
    rw [hs] at h
    unfold normal_consolidate at h
    cases he : check_energy_constraints mr with
    | ok ea =>
      rw [he] at h
      cases h
      exact Or.inr (Or.inr ⟨ea, rfl, rfl, rfl⟩)
    | error e =>
      rw [he] at h
      cases h

lemma mk_normal_decision_allActions (rc : RaceContext) (sa : Option CascadeAction)
    (sev1 : String) (ea : Option CascadeAction) (mr : ModelResults) :
    (mk_normal_decision rc sa sev1 ea mr).allActions =
      sa.toList ++ ea.toList ++
        (recommend_performance_optimization mr rc sa ea).toList := rfl

lemma mk_normal_decision_severity (rc : RaceContext) (sa : Option CascadeAction)
    (sev1 : String) (ea : Option CascadeAction) (mr : ModelResults) :
    (mk_normal_decision rc sa sev1 ea mr).severity =
      (match ea with
       | some a => if opt_mem a.severity ["CRITICAL", "HIGH"] then "WARNING" else sev1
       | none => sev1) := rfl

/-! ### Concrete inputs used by witnesses and counterexamples -/

/-- A race context with no `race_phase` key. -/
def rc0 : RaceContext := {}

/-- A predictor behaviour where every model is missing (`self.models.get(name)`
is `None`), so every attempted predictor yields no result. -/
def beh_unloaded : PredictorBehavior :=
  { latency := fun _ => 0, outcome := fun _ => RawOutcome.notLoaded }

/-- A telemetry record with all three required fields present. -/
def telemetry_ok : Telemetry :=
  { soc_current := some 80, speed_avg := some 30, motor_temp := some 40 }

/-! ### Claims -/

/-- C9 counterexample: `determine_race_phase 4 6` falls in none of the five
branches the claim lists — the code returns `"UNKNOWN"`, a sixth branch. -/
theorem race_phase_unknown_counterexample :
    determine_race_phase 4 6 = "UNKNOWN" ∧
      "UNKNOWN" ∉ ["PRACTICE", "EARLY", "MID", "LATE", "FINISH"] := by
  constructor
  · rfl
  · decide

/-- C9 (amended): the five-row table holds exactly as listed; for the default
total of 4 laps every non-negative lap falls under one of the five listed
branches; but for a larger lap total, laps strictly between 3 and the total
fall through every listed branch and yield `"UNKNOWN"`. -/
theorem race_phase_table_and_gaps :
    (determine_race_phase 0 4 = "PRACTICE" ∧ determine_race_phase 2 4 = "EARLY" ∧
     determine_race_phase 3 4 = "MID" ∧ determine_race_phase 4 4 = "LATE" ∧
     determine_race_phase 5 4 = "FINISH")
    ∧ (∀ lap : Int, 0 ≤ lap →
        determine_race_phase lap 4 ∈ ["PRACTICE", "EARLY", "MID", "LATE", "FINISH"])
    ∧ (∀ lap total : Int, 3 < lap → lap < total →
        determine_race_phase lap total = "UNKNOWN") := by
  refine ⟨⟨rfl, rfl, rfl, rfl, rfl⟩, ?_, ?_⟩
  · intro lap h
    unfold determine_race_phase
    split_ifs <;> first | decide | (exfalso; omega)
  · intro lap total h1 h2
    unfold determine_race_phase
    split_ifs <;> first | rfl | (exfalso; omega)

/-- C9 witness: the amended theorem applied at lap 1 (total 4) and at the
gap input lap 4 of 6. -/
theorem race_phase_table_and_gaps_witness :
    determine_race_phase 1 4 ∈ ["PRACTICE", "EARLY", "MID", "LATE", "FINISH"] ∧
      determine_race_phase 4 6 = "UNKNOWN" :=
  ⟨race_phase_table_and_gaps.2.1 1 (by decide),
   race_phase_table_and_gaps.2.2 4 6 (by decide) (by decide)⟩

/-- C2: evaluating the code at a failing input.  With valid telemetry and
every model unloaded the scheduler attempts all eight predictors, collects an
empty result set, and `apply_priority_cascade` then evaluates
`energy.get("margin") < 10` — that is `None < 10`, a `TypeError` that no
handler catches, so `run_real_time_inference` aborts instead of returning a
Decision. -/
lemma sched_loop_unloaded (budget : ℚ) (hb : 0 ≤ budget) (l : List String) :
    sched_loop beh_unloaded budget l 0 = (l, []) := by
  induction l with
  | nil => rfl
  | cons p ps ih =>
    have h0 : ¬ ((0:ℚ) > budget) := not_lt.mpr hb
    simp only [beh_unloaded] at ih ⊢
    simp only [sched_loop, if_neg h0, add_zero, zero_add, ih]

theorem energy_margin_typeerror_on_empty_results :
    run_real_time_inference beh_unloaded telemetry_ok rc0 100 =
      (Except.error (), priority_order) := by
  have hcas : apply_priority_cascade (assemble_results []) rc0 = Except.error () := rfl
  have hsched : run_scheduler beh_unloaded (100 / 1000) = (priority_order, []) := by
    unfold run_scheduler
    exact sched_loop_unloaded _ (by norm_num) _
  unfold run_real_time_inference
  rw [if_neg (by decide)]
  simp only [hsched, hcas]

/-- C1: for every result set containing an Anomaly result with
`detected=true` and severity Critical, and every race context, the cascade
returns a Decision whose action list has length exactly 1, whose severity is
Critical, and whose only action is `ANOMALY_DETECTED` — so no Phase-2 or
Phase-3 action appears, regardless of any Energy/Performance content. -/
theorem anomaly_critical_short_circuit (mr : ModelResults) (rc : RaceContext)
    (a : AnomalyResult) (hA : mr.anomaly = some a)
    (hDet : a.anomaly_detected = some true) (hSev : a.severity = some "CRITICAL") :
    (apply_priority_cascade mr rc).toOption.map
        (fun d => (d.allActions.length, d.severity, d.allActions.map (fun x => x.action)))
      = some (1, "CRITICAL", ["ANOMALY_DETECTED"]) := by
  unfold apply_priority_cascade check_safety_constraints
  rw [hA]
  simp [truthy, hDet, hSev, Decision.allActions, Except.toOption]

/-- C1 witness: a concrete critical anomaly together with a DNF-grade energy
result and a confident racing line; the Decision still contains only the
anomaly action. -/
theorem anomaly_critical_short_circuit_witness :
    (apply_priority_cascade
        { anomaly := some { anomaly_detected := some true,
                            anomaly_type := some "SENSOR_FAULT",
                            severity := some "CRITICAL",
                            action_recommend := some "Stop immediately" },
          energy := some { will_finish := some false, margin := some 1 },
          racing_line := some { confidence := some 1,
                                recommendation := some "apex early" } } rc0).toOption.map
        (fun d => (d.allActions.length, d.severity, d.allActions.map (fun x => x.action)))
      = some (1, "CRITICAL", ["ANOMALY_DETECTED"]) :=
  anomaly_critical_short_circuit _ rc0 _ rfl rfl rfl

lemma mk_normal_decision_primary (rc : RaceContext) (sa : Option CascadeAction)
    (sev1 : String) (ea : Option CascadeAction) (mr : ModelResults) :
    (mk_normal_decision rc sa sev1 ea mr).primary_action =
      (mk_normal_decision rc sa sev1 ea mr).allActions.headD
        normal_operation_action := rfl

lemma mk_normal_decision_count (rc : RaceContext) (sa : Option CascadeAction)
    (sev1 : String) (ea : Option CascadeAction) (mr : ModelResults) :
    (mk_normal_decision rc sa sev1 ea mr).count_alerts =
      some (count_alert_actions ((mk_normal_decision rc sa sev1 ea mr).allActions)) := rfl

lemma mk_normal_decision_fields (rc : RaceContext) (sa : Option CascadeAction)
    (sev1 : String) (ea : Option CascadeAction) (mr : ModelResults) :
    (mk_normal_decision rc sa sev1 ea mr).actions = none ∧
      (mk_normal_decision rc sa sev1 ea mr).cascade_actions =
        some ((mk_normal_decision rc sa sev1 ea mr).allActions) := ⟨rfl, rfl⟩

lemma check_energy_not_none (mr : ModelResults) (e : EnergyResult)
    (he : mr.energy = some e)
    (hcond : e.will_finish = some false ∨ ∃ m, e.margin = some m ∧ m < 10) :
    check_energy_constraints mr ≠ Except.ok none := by
  unfold check_energy_constraints
  rw [he]
  simp only [Option.some_bind]
  rcases hcond with h | ⟨m, hm, hlt⟩
  · rw [if_pos h]
    simp
  · split
    · simp
    · rw [hm]
      simp only [if_pos hlt]
      simp

lemma perf_in_actions_gate (mr : ModelResults) (rc : RaceContext) (d : Decision)
    (hd : apply_priority_cascade mr rc = Except.ok d)
    (hperf : ∃ x ∈ d.allActions, x.action = "PERFORMANCE_OPTIMIZATION") :
    check_safety_constraints mr rc = none ∧
      check_energy_constraints mr = Except.ok none := by
  obtain ⟨x, hx, hxa⟩ := hperf
  rcases cascade_ok_cases mr rc d hd with
    ⟨sa, hs, hc, rfl⟩ | ⟨sa, ea, hs, hc, he, rfl⟩ | ⟨ea, hs, he, rfl⟩
  · change x ∈ [sa] at hx
    rw [List.mem_singleton] at hx
    subst hx
    rcases check_safety_action_kinds mr rc x hs with h | h | h <;>
      rw [h] at hxa <;> exact absurd hxa (by decide)
  · have hpa : recommend_performance_optimization mr rc (some sa) ea = none := by
      cases hp : recommend_performance_optimization mr rc (some sa) ea with
      | none => rfl
      | some p => exact absurd (perf_opt_some mr rc (some sa) ea p hp).1 (by simp)
    rw [mk_normal_decision_allActions, hpa] at hx
    simp only [Option.toList_some, Option.toList_none, List.append_nil] at hx
    rcases List.mem_append.mp hx with hx1 | hx2
    · rw [List.mem_singleton] at hx1
      subst hx1
      rcases check_safety_action_kinds mr rc x hs with h | h | h <;>
        rw [h] at hxa <;> exact absurd hxa (by decide)
    · cases ea with
      | none => simp at hx2
      | some a =>
        simp only [Option.toList_some, List.mem_singleton] at hx2
        subst hx2
        rcases check_energy_ok_kinds mr x he with h | h <;>
          rw [h] at hxa <;> exact absurd hxa (by decide)
  · cases ea with
    | none => exact ⟨hs, he⟩
    | some a =>
      have hpa : recommend_performance_optimization mr rc none (some a) = none := by
        cases hp : recommend_performance_optimization mr rc none (some a) with
        | none => rfl
        | some p => exact absurd (perf_opt_some mr rc none (some a) p hp).2.1 (by simp)
      rw [mk_normal_decision_allActions, hpa] at hx
      simp only [Option.toList_some, Option.toList_none, List.nil_append,
        List.append_nil] at hx
      rw [List.mem_singleton] at hx
      subst hx
      rcases check_energy_ok_kinds mr x he with h | h <;>
        rw [h] at hxa <;> exact absurd hxa (by decide)

/-- C3: a `PERFORMANCE_OPTIMIZATION` action appears in a returned Decision's
action list only if Phase 1 produced no safety action and Phase 2 produced no
energy action at all; in particular, whenever the Energy result has
`will_finish = False` or a margin below 10, no `PERFORMANCE_OPTIMIZATION`
action appears. -/
theorem performance_gated_by_safety_and_energy :
    (∀ mr rc d, apply_priority_cascade mr rc = Except.ok d →
       (∃ x ∈ d.allActions, x.action = "PERFORMANCE_OPTIMIZATION") →
       check_safety_constraints mr rc = none ∧
         check_energy_constraints mr = Except.ok none)
    ∧ (∀ mr rc d e, apply_priority_cascade mr rc = Except.ok d →
       mr.energy = some e →
       (e.will_finish = some false ∨ ∃ m, e.margin = some m ∧ m < 10) →
       ∀ x ∈ d.allActions, x.action ≠ "PERFORMANCE_OPTIMIZATION") := by
  refine ⟨perf_in_actions_gate, ?_⟩
  intro mr rc d e hd hee hcond x hx hxa
  exact absurd (perf_in_actions_gate mr rc d hd ⟨x, hx, hxa⟩).2
    (check_energy_not_none mr e hee hcond)

/-- Result set used by the C3 witness: healthy energy and a confident
racing line, nothing else. -/
def mr_perf : ModelResults :=
  { energy := some { will_finish := some true, margin := some 50 },
    racing_line := some { confidence := some 1,
                          recommendation := some "hold line" } }

/-- C3 witness: on `mr_perf` the cascade reaches Phase 3 and emits a
`PERFORMANCE_OPTIMIZATION` action, and the gate conclusion holds. -/
theorem performance_gated_witness :
    check_safety_constraints mr_perf rc0 = none ∧
      check_energy_constraints mr_perf = Except.ok none :=
  performance_gated_by_safety_and_energy.1 mr_perf rc0
    (mk_normal_decision rc0 none "NORMAL" none mr_perf)
    (by
      have hm : ¬ ((50 : ℚ) < 10) := by norm_num
      unfold apply_priority_cascade check_safety_constraints normal_consolidate
        check_energy_constraints
      simp [mr_perf, truthy, if_neg hm, Except.map])
    (by
      refine ⟨{ action := "PERFORMANCE_OPTIMIZATION",
                severity := some "NORMAL",
                phase_specific_recommendations :=
                  some [{ type := "RACING_LINE",
                          recommendation := some "hold line",
                          confidence := some 1 }],
                race_phase := some "UNKNOWN" }, ?_, rfl⟩
      rw [mk_normal_decision_allActions]
      have hc : ((1 : ℚ) > 7/10) := by norm_num
      norm_num [recommend_performance_optimization, perf_subactions, mr_perf,
        truthy, rc0, if_pos hc])

/-- The spec's severity ordering (Normal < Warning < High < Critical <
Emergency), used to state whether an overall severity was lowered. -/
def severity_rank (s : String) : Nat :=
  if s = "NORMAL" then 0
  else if s = "WARNING" then 1
  else if s = "HIGH" then 2
  else if s = "CRITICAL" then 3
  else if s = "EMERGENCY" then 4
  else 0

/-- C5 (amended): whenever Phase 2 produces a Critical/High action and
Phase 1 did not terminate the cascade, the Decision's overall severity is
exactly `"WARNING"` — so at least Warning, but assigned, not raised: a High
severity already established by a non-critical Phase-1 action is overwritten
down to Warning (see the counterexample). -/
theorem energy_action_sets_warning (mr : ModelResults) (rc : RaceContext)
    (a : CascadeAction) (d : Decision)
    (hE : check_energy_constraints mr = Except.ok (some a))
    (hSev : opt_mem a.severity ["CRITICAL", "HIGH"] = true)
    (hSafe : ∀ sa, check_safety_constraints mr rc = some sa →
      (["CRITICAL", "EMERGENCY"].contains (sa.severity.getD "WARNING")) = false)
    (hD : apply_priority_cascade mr rc = Except.ok d) :
    d.severity = "WARNING" := by
  rcases cascade_ok_cases mr rc d hD with
    ⟨sa, hs, hc, rfl⟩ | ⟨sa, ea, hs, hc, he, rfl⟩ | ⟨ea, hs, he, rfl⟩
  · rw [hSafe sa hs] at hc
    cases hc
  · rw [he] at hE
    injection hE with hE
    subst hE
    rw [mk_normal_decision_severity]
    simp [hSev]
  · rw [he] at hE
    injection hE with hE
    subst hE
    rw [mk_normal_decision_severity]
    simp [hSev]

/-- The HIGH_FATIGUE safety action emitted for fatigue level 3. -/
def high_fatigue_action : CascadeAction :=
  { action := "HIGH_FATIGUE",
    severity := some "HIGH",
    recommendation := some "Recommend driver rest, pit for evaluation, or abort race",
    reason := some "Driver fatigue at critical level" }

/-- The DNF_RISK energy action for a result with `will_finish = False` and
no other energy keys. -/
def dnf_action_bare : CascadeAction :=
  { action := "DNF_RISK",
    severity := some "CRITICAL",
    recommendation := some "Reduce speed 20%, maximize coasting, pit for energy strategy review",
    reason := some "Vehicle will not finish race at current pace" }

/-- Result set with a non-critical Phase-1 action (fatigue level 3, severity
High) and a Critical Phase-2 action (`will_finish = False`). -/
def mr_downgrade : ModelResults :=
  { fatigue := some { fatigue_level := some 3 },
    energy := some { will_finish := some false } }

/-- C5 counterexample: on `mr_downgrade` Phase 1 establishes severity High
(non-critical), Phase 2 emits a Critical action, and the returned Decision's
overall severity is `"WARNING"` — strictly lower than the High the claim says
is never lowered. -/
theorem energy_warning_downgrade_counterexample :
    (apply_priority_cascade mr_downgrade rc0).toOption.map Decision.severity
        = some "WARNING" ∧
      (check_safety_constraints mr_downgrade rc0).bind (fun a => a.severity)
        = some "HIGH" ∧
      (check_safety_constraints mr_downgrade rc0).map
          (fun a => ["CRITICAL", "EMERGENCY"].contains (a.severity.getD "WARNING"))
        = some false ∧
      severity_rank "WARNING" < severity_rank "HIGH" := by
  exact ⟨rfl, rfl, rfl, by decide⟩

/-- C5 witness: the amended theorem applied on `mr_downgrade`. -/
theorem energy_action_sets_warning_witness :
    (mk_normal_decision rc0 (some high_fatigue_action) "HIGH"
        (some dnf_action_bare) mr_downgrade).severity = "WARNING" :=
  energy_action_sets_warning mr_downgrade rc0 dnf_action_bare _ rfl rfl
    (by
      intro sa h
      have h' := h.symm.trans
        (rfl : check_safety_constraints mr_downgrade rc0 = some high_fatigue_action)
      injection h' with h''
      rw [h'']
      rfl)
    rfl

/-- C8 (amended): `primary_action` is the first produced action (or
`NORMAL_OPERATION` with overall severity `"NORMAL"` when no phase produced
one), and on the normal consolidation path `count_alerts` equals the number
of produced actions with severity Critical/High/Warning — but the Decision
returned on the Phase-1-Critical early-termination path carries no
`count_alerts` key at all (see the counterexample). -/
theorem consolidation_primary_and_alert_count (mr : ModelResults)
    (rc : RaceContext) (d : Decision)
    (h : apply_priority_cascade mr rc = Except.ok d) :
    d.primary_action = d.allActions.headD normal_operation_action
    ∧ (d.allActions = [] →
        d.severity = "NORMAL" ∧ d.primary_action = normal_operation_action)
    ∧ (∀ l, d.cascade_actions = some l →
        d.count_alerts = some (count_alert_actions l) ∧ d.allActions = l)
    ∧ (∀ l, d.actions = some l → d.count_alerts = none) := by
  rcases cascade_ok_cases mr rc d h with
    ⟨sa, hs, hc, rfl⟩ | ⟨sa, ea, hs, hc, he, rfl⟩ | ⟨ea, hs, he, rfl⟩
  · refine ⟨rfl, ?_, ?_, ?_⟩
    · intro h0
      change ([sa] : List CascadeAction) = [] at h0
      cases h0
    · intro l hl
      exact Option.noConfusion hl
    · intro l hl
      rfl
  · refine ⟨mk_normal_decision_primary _ _ _ _ _, ?_, ?_, ?_⟩
    · intro h0
      rw [mk_normal_decision_allActions] at h0
      simp at h0
    · intro l hl
      have h2 := (mk_normal_decision_fields rc (some sa)
        (sa.severity.getD "WARNING") ea mr).2
      have h3 := h2.symm.trans hl
      injection h3 with h3
      exact ⟨by rw [mk_normal_decision_count, h3], h3⟩
    · intro l hl
      have h2 := (mk_normal_decision_fields rc (some sa)
        (sa.severity.getD "WARNING") ea mr).1
      rw [h2] at hl
      exact Option.noConfusion hl
  · refine ⟨mk_normal_decision_primary _ _ _ _ _, ?_, ?_, ?_⟩
    · intro h0
      have h0' := h0
      rw [mk_normal_decision_allActions] at h0'
      have hea : ea = none := by
        cases ea with
        | none => rfl
        | some a => simp at h0'
      subst hea
      refine ⟨rfl, ?_⟩
      rw [mk_normal_decision_primary, h0]
      rfl
    · intro l hl
      have h2 := (mk_normal_decision_fields rc none "NORMAL" ea mr).2
      have h3 := h2.symm.trans hl
      injection h3 with h3
      exact ⟨by rw [mk_normal_decision_count, h3], h3⟩
    · intro l hl
      have h2 := (mk_normal_decision_fields rc none "NORMAL" ea mr).1
      rw [h2] at hl
      exact Option.noConfusion hl

/-- Result set with a bare critical anomaly (no other keys). -/
def mr_anom : ModelResults :=
  { anomaly := some { anomaly_detected := some true, severity := some "CRITICAL" } }

/-- The anomaly action produced by Phase 1 on `mr_anom`. -/
def anomaly_action_bare : CascadeAction :=
  { action := "ANOMALY_DETECTED",
    severity := some "CRITICAL",
    reason := some ("Anomaly: " ++ py_str none) }

/-- The early-termination Decision returned by the cascade on `mr_anom`. -/
def early_decision_bare : Decision :=
  { primary_action := anomaly_action_bare,
    actions := some [anomaly_action_bare],
    reason := some "SAFETY OVERRIDE",
    severity := "CRITICAL" }

/-- C8 counterexample: the early-termination Decision for a critical anomaly
contains one Critical action, yet carries no `count_alerts` key (the claim
requires alertCount = 1 there). -/
theorem early_return_lacks_alert_count_counterexample :
    (apply_priority_cascade mr_anom rc0).toOption.map
        (fun d => (d.count_alerts, d.allActions.map (fun x => x.severity))) =
      some (none, [some "CRITICAL"]) := rfl

/-- C8 witness: the amended theorem applied on `mr_anom`, on which the
cascade returns `early_decision_bare`. -/
theorem consolidation_primary_witness :
    early_decision_bare.primary_action =
      early_decision_bare.allActions.headD normal_operation_action :=
  (consolidation_primary_and_alert_count mr_anom rc0 early_decision_bare rfl).1

/-- C10: when no anomaly is detected and the Fatigue result carries a
non-empty `medical_alerts` list, the emitted MEDICAL_ALERT action is built
from the first alert only: severity Critical iff the first alert's severity
is Critical (else High), recommendation and reason taken from the first
alert — independent of every later alert. -/
theorem medical_alert_uses_first_alert (mr : ModelResults) (rc : RaceContext)
    (f : FatigueResult) (a : MedicalAlertEntry) (rest : List MedicalAlertEntry)
    (hA : truthy (mr.anomaly.bind (fun x => x.anomaly_detected)) = false)
    (hF : mr.fatigue = some f) (hM : f.medical_alerts = some (a :: rest)) :
    check_safety_constraints mr rc =
      some { action := "MEDICAL_ALERT",
             severity := some (if a.severity = some "CRITICAL"
                               then "CRITICAL" else "HIGH"),
             recommendation := a.action,
             reason := a.alert } := by
  unfold check_safety_constraints
  rw [if_neg (by rw [hA]; exact Bool.false_ne_true)]
  rw [hF]
  simp only [Option.some_bind]
  rw [hM]

/-- Result set with two medical alerts: the first High, the second Critical. -/
def first_alert_entry : MedicalAlertEntry :=
  { severity := some "HIGH", action := some "reduce pace",
    alert := some "elevated heart rate" }

def second_alert_entry : MedicalAlertEntry :=
  { severity := some "CRITICAL", action := some "pit now",
    alert := some "low SpO2" }

def mr_med : ModelResults :=
  { fatigue := some { medical_alerts := some [first_alert_entry, second_alert_entry] } }

/-- C10 witness: a Critical alert in second position with a High first alert
yields severity High, and recommendation/reason come from the first alert. -/
theorem medical_alert_uses_first_alert_witness :
    check_safety_constraints mr_med rc0 =
      some { action := "MEDICAL_ALERT", severity := some "HIGH",
             recommendation := some "reduce pace",
             reason := some "elevated heart rate" } :=
  medical_alert_uses_first_alert mr_med rc0 _ _ _ rfl rfl rfl

/-! ### Scheduler lemmas -/

lemma sched_loop_attempted_front (beh : PredictorBehavior) (budget : ℚ) :
    ∀ (l : List String) (e : ℚ), ∃ t, l = (sched_loop beh budget l e).1 ++ t := by
  intro l
  induction l with
  | nil => intro e; exact ⟨[], rfl⟩
  | cons p ps ih =>
    intro e
    by_cases hb : e > budget
    · refine ⟨p :: ps, ?_⟩
      simp [sched_loop, if_pos hb]
    · obtain ⟨t, ht⟩ := ih (e + beh.latency p)
      refine ⟨t, ?_⟩
      simp only [sched_loop, if_neg hb]
      cases ho : beh.outcome p <;> simp only [ho] <;>
        rw [List.cons_append, ← ht]

lemma sched_loop_full (beh : PredictorBehavior) (budget : ℚ)
    (hlat : ∀ p, 0 ≤ beh.latency p) :
    ∀ (l : List String) (e : ℚ),
      e + (l.map beh.latency).sum ≤ budget →
      (sched_loop beh budget l e).1 = l := by
  intro l
  induction l with
  | nil => intro e _; rfl
  | cons p ps ih =>
    intro e he
    have hs : (0:ℚ) ≤ ((p :: ps).map beh.latency).sum := by
      apply List.sum_nonneg
      intro x hx
      simp only [List.mem_map] at hx
      obtain ⟨q, _, rfl⟩ := hx
      exact hlat q
    have h0 : ¬ e > budget := by
      push_neg
      linarith
    have ih' := ih (e + beh.latency p) (by
      simp only [List.map_cons, List.sum_cons] at he
      linarith)
    simp only [sched_loop, if_neg h0]
    cases ho : beh.outcome p <;> simp only [ho] <;> rw [ih']

lemma sched_loop_result_keys (beh : PredictorBehavior) (budget : ℚ) :
    ∀ (l : List String) (e : ℚ) (q : String),
      q ∈ (sched_loop beh budget l e).2.map Prod.fst →
      (∃ r, beh.outcome q = RawOutcome.ok r) ∧
        q ∈ (sched_loop beh budget l e).1 := by
  intro l
  induction l with
  | nil => intro e q hq; simp [sched_loop] at hq
  | cons p ps ih =>
    intro e q hq
    by_cases hb : e > budget
    · simp [sched_loop, if_pos hb] at hq
    · simp only [sched_loop, if_neg hb] at hq ⊢
      cases ho : beh.outcome p with
      | ok r =>
        simp only [ho, List.map_cons, List.mem_cons] at hq ⊢
        rcases hq with hq | hq
        · exact ⟨⟨r, by rw [hq]; exact ho⟩, Or.inl hq⟩
        · obtain ⟨hex, hmem⟩ := ih (e + beh.latency p) q hq
          exact ⟨hex, Or.inr hmem⟩
      | raises msg =>
        simp only [ho, List.mem_cons] at hq ⊢
        obtain ⟨hex, hmem⟩ := ih (e + beh.latency p) q hq
        exact ⟨hex, Or.inr hmem⟩
      | notLoaded =>
        simp only [ho, List.mem_cons] at hq ⊢
        obtain ⟨hex, hmem⟩ := ih (e + beh.latency p) q hq
        exact ⟨hex, Or.inr hmem⟩

lemma sched_loop_attempted_outcome_indep (lat : String → ℚ)
    (out1 out2 : String → RawOutcome) (budget : ℚ) :
    ∀ (l : List String) (e : ℚ),
      (sched_loop ⟨lat, out1⟩ budget l e).1 =
        (sched_loop ⟨lat, out2⟩ budget l e).1 := by
  intro l
  induction l with
  | nil => intro e; rfl
  | cons p ps ih =>
    intro e
    by_cases hb : e > budget
    · simp [sched_loop, if_pos hb]
    · simp only [sched_loop, if_neg hb]
      cases h1 : out1 p <;> cases h2 : out2 p <;>
        simp only [h1, h2] <;> exact congrArg (p :: ·) (ih (e + lat p))

/-- C4 (amended): the attempted identifiers always form a prefix of the
fixed priority list, in invocation order; a budget at least the sum of all
latencies yields exactly the full list; and the result set only ever
contains attempted identifiers.  (The attempted prefix need not be strict
when the budget is smaller than the total latency: the pre-call check means
the budget can first be exceeded only after the last call — see the
counterexample.) -/
theorem scheduler_priority_and_budget :
    (∀ beh budget, ∃ t, priority_order = (run_scheduler beh budget).1 ++ t)
    ∧ (∀ beh budget, (∀ p, 0 ≤ beh.latency p) →
        (priority_order.map beh.latency).sum ≤ budget →
        (run_scheduler beh budget).1 = priority_order)
    ∧ (∀ beh budget q, q ∈ (run_scheduler beh budget).2.map Prod.fst →
        q ∈ (run_scheduler beh budget).1) := by
  refine ⟨?_, ?_, ?_⟩
  · intro beh budget
    exact sched_loop_attempted_front beh budget priority_order 0
  · intro beh budget hlat hs
    exact sched_loop_full beh budget hlat priority_order 0
      (by rw [zero_add]; exact hs)
  · intro beh budget q hq
    exact (sched_loop_result_keys beh budget priority_order 0 q hq).2

/-- A behaviour where every predictor takes 10 ms-equivalents and returns a
result. -/
def beh_slow : PredictorBehavior :=
  { latency := fun _ => 10, outcome := fun _ => RawOutcome.ok PResult.otherR }

/-- C4 counterexample: with eight predictors of latency 10 and budget 79
(smaller than the cumulative latency 80), the check before each call never
fires, so the returned result set is the FULL priority list — not a strict
prefix: `"rank"`, the last identifier, is in the result set, yet no strict
prefix (`take n`, `n ≤ 7`) of the order contains `"rank"`. -/
theorem budget_truncation_counterexample :
    (run_scheduler beh_slow 79).2.map Prod.fst = priority_order ∧
      (79 : ℚ) < (priority_order.map beh_slow.latency).sum ∧
      (∀ n, n ≤ 7 → "rank" ∉ priority_order.take n) ∧
      "rank" ∈ priority_order := by
  refine ⟨?_, by norm_num [priority_order, beh_slow], by decide, by decide⟩
  norm_num [run_scheduler, sched_loop, priority_order, beh_slow]

/-- C4 witness: the amended theorem's full-list part applied to `beh_slow`
with a budget of 1000 ≥ 80. -/
theorem scheduler_priority_witness :
    (run_scheduler beh_slow 1000).1 = priority_order :=
  scheduler_priority_and_budget.2.1 beh_slow 1000
    (fun p => by norm_num [beh_slow])
    (by norm_num [priority_order, beh_slow])

/-- C6: a predictor whose invocation raises or whose model is not loaded is
simply omitted from the collected result set (the `except` branch of its
wrapper returns `None`, which the `if result:` guard drops), and the
attempted sequence is exactly what it would have been under any other
outcomes — all remaining predictors are still attempted; no exception
escapes the loop (the loop's type has no error channel). -/
theorem predictor_failure_is_silent_omission (lat : String → ℚ)
    (out out2 : String → RawOutcome) (budget : ℚ) (p : String) (msg : String)
    (h : out p = RawOutcome.raises msg ∨ out p = RawOutcome.notLoaded) :
    p ∉ (run_scheduler ⟨lat, out⟩ budget).2.map Prod.fst
    ∧ (run_scheduler ⟨lat, out⟩ budget).1 =
        (run_scheduler ⟨lat, out2⟩ budget).1 := by
  constructor
  · intro hp
    obtain ⟨r, hr⟩ :=
      (sched_loop_result_keys ⟨lat, out⟩ budget priority_order 0 p hp).1
    have hr' : out p = RawOutcome.ok r := hr
    rcases h with h | h <;> rw [h] at hr' <;> cases hr'
  · exact sched_loop_attempted_outcome_indep lat out out2 budget priority_order 0

/-- Outcomes where the fatigue predictor raises and every other returns. -/
def out_fail : String → RawOutcome := fun q =>
  if q = "fatigue" then RawOutcome.raises "boom" else RawOutcome.ok PResult.otherR

/-- C6 witness: with the fatigue predictor raising, `"fatigue"` is absent
from the result set and the attempted sequence matches the all-healthy run. -/
theorem predictor_failure_witness :
    "fatigue" ∉ (run_scheduler ⟨fun _ => 0, out_fail⟩ 1).2.map Prod.fst ∧
      (run_scheduler ⟨fun _ => 0, out_fail⟩ 1).1 =
        (run_scheduler ⟨fun _ => 0, fun _ => RawOutcome.ok PResult.otherR⟩ 1).1 :=
  predictor_failure_is_silent_omission (fun _ => 0) out_fail
    (fun _ => RawOutcome.ok PResult.otherR) 1 "fatigue" "boom" (Or.inl rfl)

/-- C7: if any of the three required telemetry fields (`soc_current`,
`speed_avg`, `motor_temp`) is absent, `run_real_time_inference` attempts no
predictor and immediately returns the fallback response with an empty
`models_executed` list and a non-empty generic manual-monitoring
recommendation list. -/
theorem missing_telemetry_field_fallback (beh : PredictorBehavior)
    (t : Telemetry) (rc : RaceContext) (budget : ℚ)
    (h : t.soc_current = none ∨ t.speed_avg = none ∨ t.motor_temp = none) :
    run_real_time_inference beh t rc budget =
      (Except.ok (CycleResult.fallbackR "Invalid telemetry"
        fallback_recommendations []), [])
    ∧ fallback_recommendations ≠ [] := by
  constructor
  · have hv : validate_telemetry t = false := by
      unfold validate_telemetry
      rcases h with h | h | h <;> rw [h] <;> simp
    unfold run_real_time_inference
    rw [if_pos hv]
  · decide

/-- A telemetry record missing the charge field. -/
def telemetry_missing_soc : Telemetry :=
  { speed_avg := some 30, motor_temp := some 40 }

/-- C7 witness: the theorem applied to a record missing `soc_current`. -/
theorem missing_telemetry_witness :
    run_real_time_inference beh_unloaded telemetry_missing_soc rc0 100 =
      (Except.ok (CycleResult.fallbackR "Invalid telemetry"
        fallback_recommendations []), []) ∧
      fallback_recommendations ≠ [] :=
  missing_telemetry_field_fallback beh_unloaded telemetry_missing_soc rc0 100
    (Or.inl rfl)
